import Mathlib

/-!
A shallow embedding of the flow-api-go client library (client.go and
entities.go) together with proofs about its token lifecycle, error
reporting, response flattening and convenience queries.

HTTP traffic is modelled by an oracle: each issued request gets an
`HttpOutcome` chosen by the environment.  Parsing a response body with the
external JSON library is modelled by attaching the parse result
(`Option Json`) to the response; the fixed error-message prefixes produced
by the library code itself are embedded literally.  Time is modelled as an
integer count of seconds.
-/

namespace FlowAPI

/-- JSON values as produced by decoding a response body.  Numbers are
modelled as integers: the library only ever reads integral ids and
second counts from them. -/
inductive Json where
  | null : Json
  | bool (b : Bool) : Json
  | num (n : Int) : Json
  | str (s : String) : Json
  | arr (xs : List Json) : Json
  | obj (fields : List (String × Json)) : Json

/-- A decoded JSON object / Go `map[string]interface{}`: an association
list in which `mapGet` sees the most recently inserted binding, matching
Go map lookup after a sequence of assignments. -/
abbrev JObj := List (String × Json)

/-- A flattened entity (`type Entity map[string]interface{}` in entities.go). -/
abbrev Entity := List (String × Json)

/-- Lookup in an association list: the first (most recent) binding wins. -/
def mapGet : List (String × Json) → String → Option Json
  | [], _ => none
  | (k, v) :: rest, key => if k = key then some v else mapGet rest key

/-- Go map assignment `m[k] = v`: the new binding shadows any older one. -/
def mapSet (m : JObj) (k : String) (v : Json) : JObj := (k, v) :: m

/-- A `for k, v := range src` loop of assignments into `base`. -/
def mergeInto (base : JObj) (src : JObj) : JObj :=
  src.foldl (fun e p => mapSet e p.1 p.2) base

/-- The client state (`struct Client` in client.go).  The `httpClient`
field is replaced by the oracle model of HTTP traffic. -/
structure Client where
  baseURL : String
  apiVersion : String
  accessToken : String
  refreshToken : String
  tokenExpiry : Int
  scriptName : String
  scriptKey : String
  deriving DecidableEq

/-- Outcome of one HTTP round trip, chosen by the environment:
either `httpClient.Do` fails, or `io.ReadAll` on the body fails, or a
response arrives with a status code, its body text, and the result of
parsing that text as JSON (`none` when the text is not valid JSON). -/
inductive HttpOutcome where
  | sendError (msg : String) : HttpOutcome
  | readError (msg : String) : HttpOutcome
  | response (status : Nat) (text : String) (json : Option Json) : HttpOutcome

/-- A request issued on the wire, recorded in an observable trace. -/
inductive Request where
  | auth (url : String) (clientId clientSecret : String) : Request
  | search (url : String) (body : JObj) : Request
  | getOne (url : String) : Request
  | create (url : String) (body : JObj) : Request

/-- True for token-exchange requests. -/
def Request.isAuthCall : Request → Bool
  | Request.auth _ _ _ => true
  | _ => false

/-- Number of token exchanges recorded in a trace. -/
def authCount (tr : List Request) : Nat := (tr.filter Request.isAuthCall).length

/-- Decoded token endpoint payload (`struct TokenResponse` in client.go). -/
structure TokenResponse where
  tokenType : String
  accessToken : String
  expiresIn : Int
  refreshToken : String
  deriving DecidableEq

/-- Read a string-typed struct field the way `encoding/json` does: an
absent key or a JSON null leaves the zero value, a string is taken,
anything else is a decode error. -/
def getStrField (o : JObj) (k : String) : Option String :=
  match mapGet o k with
  | none => some ""
  | some Json.null => some ""
  | some (Json.str s) => some s
  | some _ => none

/-- Read an int-typed struct field (absent or null gives the zero value). -/
def getIntField (o : JObj) (k : String) : Option Int :=
  match mapGet o k with
  | none => some 0
  | some Json.null => some 0
  | some (Json.num n) => some n
  | some _ => none

/-- Read a map-typed struct field (absent or null gives a nil map). -/
def getObjField (o : JObj) (k : String) : Option JObj :=
  match mapGet o k with
  | none => some []
  | some Json.null => some []
  | some (Json.obj d) => some d
  | some _ => none

/-- Unmarshalling of the token endpoint body into `TokenResponse`. -/
def parseTokenResponse (j : Json) : Option TokenResponse :=
  match j with
  | Json.obj o =>
      match getStrField o "token_type", getStrField o "access_token",
            getIntField o "expires_in", getStrField o "refresh_token" with
      | some tt, some ak, some ei, some rt =>
          some { tokenType := tt, accessToken := ak, expiresIn := ei, refreshToken := rt }
      | _, _, _, _ => none
  | Json.null => some { tokenType := "", accessToken := "", expiresIn := 0, refreshToken := "" }
  | _ => none

/-- Stand-in for the message text of an error produced by the external
JSON library; the repository only contributes the wrapping prefix. -/
def unmarshalErr : String := "cannot unmarshal value"

/-- The token endpoint URL built in `authenticate`. -/
def authURL (c : Client) : String :=
  c.baseURL ++ "/api/" ++ c.apiVersion ++ "/auth/access_token"

/-- Error text of `authenticate` for a non-200 status. -/
def authStatusFailMsg (st : Nat) (text : String) : String :=
  "authentication failed with status " ++ toString st ++ ": " ++ text

/-- The `authenticate` method: one client-credentials exchange.  Returns
the updated client, the issued request, and `some` error message on
failure.  On failure the client is returned unchanged; on success the
three volatile session fields are replaced and the expiry becomes
`now + expires_in`. -/
def authenticate (c : Client) (now : Int) (out : HttpOutcome) :
    Client × List Request × Option String :=
  let req := Request.auth (authURL c) c.scriptName c.scriptKey
  match out with
  | HttpOutcome.sendError m => (c, [req], some ("failed to send request: " ++ m))
  | HttpOutcome.readError m => (c, [req], some ("failed to read response: " ++ m))
  | HttpOutcome.response st text j =>
      if st = 200 then
        match Option.bind j parseTokenResponse with
        | none => (c, [req], some ("failed to parse token response: " ++ unmarshalErr))
        | some t =>
            ({ c with accessToken := t.accessToken, refreshToken := t.refreshToken,
                      tokenExpiry := now + t.expiresIn }, [req], none)
      else (c, [req], some (authStatusFailMsg st text))

/-- The `GetAccessToken` method: refresh when `now + 60` is strictly
after the recorded expiry (`time.Now().Add(60 * time.Second).After(...)`),
then return the stored token. -/
def getAccessToken (c : Client) (now : Int) (out : HttpOutcome) :
    Client × List Request × Except String String :=
  if c.tokenExpiry < now + 60 then
    match authenticate c now out with
    | (c', tr, some e) => (c', tr, Except.error e)
    | (c', tr, none) => (c', tr, Except.ok c'.accessToken)
  else (c, [], Except.ok c.accessToken)

/-- The `IsAuthenticated` method: non-empty token and `now` strictly
before the expiry. -/
def isAuthenticated (c : Client) (now : Int) : Bool :=
  c.accessToken != "" && decide (now < c.tokenExpiry)

/-- Construction input (`struct Config` in client.go, transport override
replaced by the oracle model). -/
structure Config where
  siteURL : String
  scriptName : String
  scriptKey : String
  apiVersion : String
  deriving DecidableEq

/-- The client value assembled by `NewClient` before the initial
authentication; Go's zero `time.Time` is modelled as instant 0. -/
def initClient (cfg : Config) : Client :=
  { baseURL := cfg.siteURL
    apiVersion := if cfg.apiVersion = "" then "v1.1" else cfg.apiVersion
    accessToken := ""
    refreshToken := ""
    tokenExpiry := 0
    scriptName := cfg.scriptName
    scriptKey := cfg.scriptKey }

/-- The `NewClient` constructor: validate the configuration, then
authenticate immediately; an authentication failure yields an error and
no client. -/
def newClient (cfg : Config) (now : Int) (out : HttpOutcome) :
    Except String Client × List Request :=
  if cfg.siteURL = "" then (Except.error "site URL is required", [])
  else if cfg.scriptName = "" then (Except.error "script name is required", [])
  else if cfg.scriptKey = "" then (Except.error "script key is required", [])
  else
    match authenticate (initClient cfg) now out with
    | (_, tr, some e) => (Except.error ("initial authentication failed: " ++ e), tr)
    | (c, tr, none) => (Except.ok c, tr)

/-- One item of a response envelope (`{id, type, attributes, relationships}`). -/
structure RespItem where
  id : Int
  type : String
  attributes : JObj
  relationships : JObj

/-- Unmarshalling of one envelope item, with `encoding/json` struct
semantics (absent or null fields keep their zero values, ill-typed
fields are a decode error). -/
def parseRespItem (j : Json) : Option RespItem :=
  match j with
  | Json.obj o =>
      match getIntField o "id", getStrField o "type",
            getObjField o "attributes", getObjField o "relationships" with
      | some i, some ty, some a, some r =>
          some { id := i, type := ty, attributes := a, relationships := r }
      | _, _, _, _ => none
  | Json.null => some { id := 0, type := "", attributes := [], relationships := [] }
  | _ => none

/-- Unmarshalling of a list of envelope items; any bad item fails the whole decode. -/
def parseItems : List Json → Option (List RespItem)
  | [] => some []
  | j :: js =>
      match parseRespItem j, parseItems js with
      | some it, some its => some (it :: its)
      | _, _ => none

/-- Unmarshalling of a search response `{ data: [item, ...] }`. -/
def parseSearchData (j : Json) : Option (List RespItem) :=
  match j with
  | Json.obj o =>
      match mapGet o "data" with
      | none => some []
      | some Json.null => some []
      | some (Json.arr xs) => parseItems xs
      | some _ => none
  | Json.null => some []
  | _ => none

/-- Unmarshalling of a single-object response `{ data: item }`. -/
def parseSingleData (j : Json) : Option RespItem :=
  match j with
  | Json.obj o =>
      match mapGet o "data" with
      | none => some { id := 0, type := "", attributes := [], relationships := [] }
      | some d => parseRespItem d
  | Json.null => some { id := 0, type := "", attributes := [], relationships := [] }
  | _ => none

/-- The flattening loop shared by `FindEntities`, `GetEntity` and
`CreateEntity`: start from `{"id": ..., "type": ...}`, then assign every
attributes binding, then every relationships binding. -/
def flattenItem (id : Int) (ty : String) (attrs rels : JObj) : Entity :=
  mergeInto (mergeInto (mapSet (mapSet [] "id" (Json.num id)) "type" (Json.str ty)) attrs) rels

/-- Flattening of one decoded envelope item. -/
def flattenRespItem (it : RespItem) : Entity :=
  flattenItem it.id it.type it.attributes it.relationships

/-- The request body built by `FindEntities`: the `filters` field is the
supplied value, or an empty array when none was supplied; the field is
always present. -/
def searchBody (filters : Option Json) : JObj :=
  match filters with
  | some f => mapSet [] "filters" f
  | none => mapSet [] "filters" (Json.arr [])

/-- The search URL built by `FindEntities`. -/
def searchURL (c : Client) (entityType : String) (fields : List String) : String :=
  c.baseURL ++ "/api/" ++ c.apiVersion ++ "/entity/" ++ entityType ++ "/_search" ++
    (if fields.isEmpty then "" else "?fields=" ++ String.intercalate "," fields)

/-- The URL built by `GetEntity`. -/
def entityURL (c : Client) (entityType : String) (id : Int) (fields : List String) : String :=
  c.baseURL ++ "/api/" ++ c.apiVersion ++ "/entity/" ++ entityType ++ "/" ++ toString id ++
    (if fields.isEmpty then "" else "?fields=" ++ String.intercalate "," fields)

/-- The URL built by `CreateEntity`. -/
def createURL (c : Client) (entityType : String) : String :=
  c.baseURL ++ "/api/" ++ c.apiVersion ++ "/entity/" ++ entityType

/-- Error text of the entity operations for a non-success status. -/
def statusFailMsg (st : Nat) (text : String) : String :=
  "request failed with status " ++ toString st ++ ": " ++ text

/-- Error text of the entity operations for a body that does not decode. -/
def parseFailMsg : String := "failed to parse response: " ++ unmarshalErr

/-- The `FindEntities` method.  `aOut` answers the token refresh (when
one is issued) and `sOut` answers the search request itself. -/
def findEntities (c : Client) (now : Int) (aOut sOut : HttpOutcome)
    (entityType : String) (filters : Option Json) (fields : List String) :
    Client × List Request × Except String (List Entity) :=
  match getAccessToken c now aOut with
  | (c', tr, Except.error e) => (c', tr, Except.error ("failed to get access token: " ++ e))
  | (c', tr, Except.ok _tok) =>
      let tr' := tr ++ [Request.search (searchURL c' entityType fields) (searchBody filters)]
      match sOut with
      | HttpOutcome.sendError m => (c', tr', Except.error ("failed to send request: " ++ m))
      | HttpOutcome.readError m => (c', tr', Except.error ("failed to read response: " ++ m))
      | HttpOutcome.response st text j =>
          if st = 200 then
            match Option.bind j parseSearchData with
            | none => (c', tr', Except.error parseFailMsg)
            | some items => (c', tr', Except.ok (items.map flattenRespItem))
          else (c', tr', Except.error (statusFailMsg st text))

/-- The `GetEntity` method. -/
def getEntity (c : Client) (now : Int) (aOut gOut : HttpOutcome)
    (entityType : String) (id : Int) (fields : List String) :
    Client × List Request × Except String Entity :=
  match getAccessToken c now aOut with
  | (c', tr, Except.error e) => (c', tr, Except.error ("failed to get access token: " ++ e))
  | (c', tr, Except.ok _tok) =>
      let tr' := tr ++ [Request.getOne (entityURL c' entityType id fields)]
      match gOut with
      | HttpOutcome.sendError m => (c', tr', Except.error ("failed to send request: " ++ m))
      | HttpOutcome.readError m => (c', tr', Except.error ("failed to read response: " ++ m))
      | HttpOutcome.response st text j =>
          if st = 200 then
            match Option.bind j parseSingleData with
            | none => (c', tr', Except.error parseFailMsg)
            | some it => (c', tr', Except.ok (flattenRespItem it))
          else (c', tr', Except.error (statusFailMsg st text))

/-- The `CreateEntity` method (success status is 201 Created). -/
def createEntity (c : Client) (now : Int) (aOut cOut : HttpOutcome)
    (entityType : String) (data : JObj) :
    Client × List Request × Except String Entity :=
  match getAccessToken c now aOut with
  | (c', tr, Except.error e) => (c', tr, Except.error ("failed to get access token: " ++ e))
  | (c', tr, Except.ok _tok) =>
      let tr' := tr ++ [Request.create (createURL c' entityType) data]
      match cOut with
      | HttpOutcome.sendError m => (c', tr', Except.error ("failed to send request: " ++ m))
      | HttpOutcome.readError m => (c', tr', Except.error ("failed to read response: " ++ m))
      | HttpOutcome.response st text j =>
          if st = 201 then
            match Option.bind j parseSingleData with
            | none => (c', tr', Except.error parseFailMsg)
            | some it => (c', tr', Except.ok (flattenRespItem it))
          else (c', tr', Except.error (statusFailMsg st text))

/-- Field list of the user convenience lookups. -/
def userFields : List String := ["id", "name", "login", "email"]

/-- The filter expression built by `GetUserByLogin`. -/
def loginFilters (login : String) : Json :=
  Json.arr [Json.arr [Json.str "login", Json.str "is", Json.str login]]

/-- The filter expression built by `GetUserByName`. -/
def nameFilters (name : String) : Json :=
  Json.arr [Json.arr [Json.str "name", Json.str "is", Json.str name]]

/-- The `GetUserByLogin` method: search, then report not-found on an
empty result, else the first match. -/
def getUserByLogin (c : Client) (now : Int) (aOut sOut : HttpOutcome) (login : String) :
    Client × List Request × Except String Entity :=
  match findEntities c now aOut sOut "human_users" (some (loginFilters login)) userFields with
  | (c', tr, Except.error e) => (c', tr, Except.error e)
  | (c', tr, Except.ok users) =>
      match users with
      | [] => (c', tr, Except.error ("user not found with login: " ++ login))
      | u :: _ => (c', tr, Except.ok u)

/-- The `GetUserByName` method. -/
def getUserByName (c : Client) (now : Int) (aOut sOut : HttpOutcome) (name : String) :
    Client × List Request × Except String Entity :=
  match findEntities c now aOut sOut "human_users" (some (nameFilters name)) userFields with
  | (c', tr, Except.error e) => (c', tr, Except.error e)
  | (c', tr, Except.ok users) =>
      match users with
      | [] => (c', tr, Except.error ("user not found with name: " ++ name))
      | u :: _ => (c', tr, Except.ok u)

/-- The filter expression built by `GetTasksForUser`. -/
def tasksForUserFilters (userID : Int) : Json :=
  Json.arr [Json.arr [Json.str "task_assignees", Json.str "is",
    Json.obj [("type", Json.str "HumanUser"), ("id", Json.num userID)]]]

/-- The `GetTasksForUser` method. -/
def getTasksForUser (c : Client) (now : Int) (aOut sOut : HttpOutcome)
    (userID : Int) (fields : List String) :
    Client × List Request × Except String (List Entity) :=
  findEntities c now aOut sOut "tasks" (some (tasksForUserFilters userID))
    (if fields.isEmpty then ["content", "entity", "sg_status_list", "project"] else fields)

/-- Unwrapping of a relationship value that may carry a nested
`data` object (`if data, ok := entity["data"].(map[string]interface{}); ok`). -/
def unwrapData (ent : JObj) : JObj :=
  match mapGet ent "data" with
  | some (Json.obj d) => d
  | _ => ent

/-- The body of the type and id checks of `GetShotsForUser`, run on the
(possibly unwrapped) relationship object: the type must be the string
`"Shot"` and the id numeric, otherwise nothing is extracted. -/
def shotIDOfObj (ent0 : JObj) : Option Int :=
  match mapGet (unwrapData ent0) "type" with
  | some (Json.str ty) =>
      if ty = "Shot" then
        match mapGet (unwrapData ent0) "id" with
        | some (Json.num i) => some i
        | _ => none
      else none
  | _ => none

/-- Shot-id extraction from one task of `GetShotsForUser`: the task's
`entity` value must be an object (possibly `data`-wrapped), its type the
string `"Shot"` and its id numeric; otherwise the task is skipped. -/
def extractShotID (task : Entity) : Option Int :=
  match mapGet task "entity" with
  | some (Json.obj ent0) => shotIDOfObj ent0
  | _ => none

/-- The deduplicating accumulation loop over the tasks (the Go code
collects ids as keys of a `map[int]bool`). -/
def extractAux : List Int → List Entity → List Int
  | acc, [] => acc
  | acc, t :: ts =>
      match extractShotID t with
      | some i => extractAux (if i ∈ acc then acc else acc ++ [i]) ts
      | none => extractAux acc ts

/-- The full shot-id set extracted by `GetShotsForUser`, each id once. -/
def extractShotIDs (tasks : List Entity) : List Int := extractAux [] tasks

/-- The filter expression of the second (shots) lookup of `GetShotsForUser`. -/
def idInFilters (ids : List Int) : Json :=
  Json.arr [Json.arr [Json.str "id", Json.str "in", Json.arr (ids.map Json.num)]]

/-- The `GetShotsForUser` method: fetch the user's tasks, extract unique
shot ids, and short-circuit to an empty result when there are none;
otherwise issue the second search. -/
def getShotsForUser (c : Client) (now : Int) (a1 o1 a2 o2 : HttpOutcome)
    (userID : Int) (fields : List String) :
    Client × List Request × Except String (List Entity) :=
  match getTasksForUser c now a1 o1 userID ["entity"] with
  | (c', tr1, Except.error e) => (c', tr1, Except.error e)
  | (c', tr1, Except.ok tasks) =>
      let ids := extractShotIDs tasks
      if ids.isEmpty then (c', tr1, Except.ok [])
      else
        match findEntities c' now a2 o2 "shots" (some (idInFilters ids))
            (if fields.isEmpty then ["code", "description", "sg_status_list", "project"] else fields) with
        | (c'', tr2, r) => (c'', tr1 ++ tr2, r)

/-- The three error kinds the specification asks callers to be able to
tell apart. -/
inductive ErrKind where
  | transport : ErrKind
  | decode : ErrKind
  | application : ErrKind
  deriving DecidableEq

/-- Prefix test on character lists. -/
def listHasPref : List Char → List Char → Bool
  | [], _ => true
  | _ :: _, [] => false
  | a :: as, b :: bs => a == b && listHasPref as bs

/-- Prefix test on strings. -/
def strHasPref (p s : String) : Bool := listHasPref p.data s.data

/-- Classification of a returned error message by the fixed prefixes the
library code wraps around each failure, decidable from the error value
alone. -/
def classifyErr (msg : String) : Option ErrKind :=
  if strHasPref "failed to send request: " msg || strHasPref "failed to read response: " msg then
    some ErrKind.transport
  else if strHasPref "failed to parse response: " msg then some ErrKind.decode
  else if strHasPref "request failed with status " msg then some ErrKind.application
  else none

/-! Helper lemmas about the authenticator. -/

/-- One call to `authenticate` issues exactly the one token-exchange request. -/
theorem authenticate_trace (c : Client) (now : Int) (out : HttpOutcome) :
    (authenticate c now out).2.1 = [Request.auth (authURL c) c.scriptName c.scriptKey] := by
  cases out with
  | sendError m => rfl
  | readError m => rfl
  | response st text j =>
      simp only [authenticate]
      split
      · cases Option.bind j parseTokenResponse <;> rfl
      · rfl

/-- C3: the token refresh is atomic: when `authenticate` fails (for any of
the transport, non-200 or decode reasons) none of the three volatile
session fields changes (the whole client is unchanged); when it succeeds
all three are replaced from the decoded body, with the expiry set to
`now + expires_in`. -/
theorem authenticate_atomic (c : Client) (now : Int) (out : HttpOutcome) :
    (∀ e, (authenticate c now out).2.2 = some e → (authenticate c now out).1 = c) ∧
    ((authenticate c now out).2.2 = none →
      ∃ text j t, out = HttpOutcome.response 200 text (some j) ∧
        parseTokenResponse j = some t ∧
        (authenticate c now out).1.accessToken = t.accessToken ∧
        (authenticate c now out).1.refreshToken = t.refreshToken ∧
        (authenticate c now out).1.tokenExpiry = now + t.expiresIn) := by
  constructor
  · intro e he
    cases out with
    | sendError m => rfl
    | readError m => rfl
    | response st text j =>
        by_cases hst : st = 200
        · subst hst
          cases hj : Option.bind j parseTokenResponse with
          | none => simp [authenticate, hj]
          | some t => simp [authenticate, hj] at he
        · simp [authenticate, hst]
  · intro hnone
    cases out with
    | sendError m => simp [authenticate] at hnone
    | readError m => simp [authenticate] at hnone
    | response st text j =>
        by_cases hst : st = 200
        · subst hst
          cases hj : Option.bind j parseTokenResponse with
          | none => simp [authenticate, hj] at hnone
          | some t =>
              rcases j with _ | jj
              · simp [Option.bind] at hj
              · refine ⟨text, jj, t, rfl, ?_, ?_, ?_, ?_⟩
                · simpa [Option.bind] using hj
                all_goals simp [authenticate, hj]
        · simp [authenticate, hst] at hnone

/-- C3 witness data: a failing outcome and a successful one. -/
def cDemo : Client :=
  { baseURL := "https://site", apiVersion := "v1.1", accessToken := "tokA",
    refreshToken := "refA", tokenExpiry := 500, scriptName := "scr", scriptKey := "key" }

/-- A well-formed token endpoint body. -/
def tokenBodyDemo : Json :=
  Json.obj [("token_type", Json.str "Bearer"), ("access_token", Json.str "tokB"),
    ("expires_in", Json.num 600), ("refresh_token", Json.str "refB")]

/-- C3 witness: the atomicity theorem applied at concrete inputs. -/
theorem authenticate_atomic_witness :
    (authenticate cDemo 0 (HttpOutcome.sendError "no route")).1 = cDemo ∧
    (authenticate cDemo 0 (HttpOutcome.response 200 "" (some tokenBodyDemo))).1.tokenExpiry = 0 + 600 := by
  constructor
  · exact (authenticate_atomic cDemo 0 (HttpOutcome.sendError "no route")).1
      ("failed to send request: " ++ "no route") rfl
  · have h := (authenticate_atomic cDemo 0
      (HttpOutcome.response 200 "" (some tokenBodyDemo))).2 rfl
    rcases h with ⟨text, j, t, hout, hparse, _, _, hexp⟩
    have hj : tokenBodyDemo = j := by
      injection hout with h1 h2 h3
      injection h3
    subst hj
    have hcalc : parseTokenResponse tokenBodyDemo =
        some ⟨"Bearer", "tokB", 600, "refB"⟩ := rfl
    rw [hcalc] at hparse
    injection hparse with h5
    rw [← h5] at hexp
    simpa using hexp

/-- C1 counterexample input: a client whose token expires exactly 60
seconds from `now = 0`. -/
def cBoundary : Client :=
  { baseURL := "https://site", apiVersion := "v1.1", accessToken := "tokA",
    refreshToken := "refA", tokenExpiry := 60, scriptName := "scr", scriptKey := "key" }

/-- An arbitrary outcome for a request that is never issued. -/
def outUnused : HttpOutcome := HttpOutcome.response 200 "" none

/-- C1 counterexample: at `now = 0` the boundary `now + 60 = expiry` is
reached (so the claim demands exactly one exchange), yet `GetAccessToken`
performs zero exchanges and returns the stored token unchanged, because
the code refreshes only when `now + 60` is strictly after the expiry. -/
theorem getAccessToken_boundary_counterexample :
    (0 : Int) + 60 ≥ cBoundary.tokenExpiry ∧
    authCount (getAccessToken cBoundary 0 outUnused).2.1 = 0 ∧
    (getAccessToken cBoundary 0 outUnused).2.2 = Except.ok cBoundary.accessToken ∧
    (getAccessToken cBoundary 0 outUnused).1 = cBoundary := by
  refine ⟨by norm_num [cBoundary], rfl, rfl, rfl⟩

/-- C1 (amended): a `GetAccessToken` call performs exactly one token
exchange when `now + 60` is strictly past the recorded expiry, and
performs zero exchanges, returns the stored token and leaves the client
unchanged when `now + 60 ≤ expiry` (including exact equality). -/
theorem getAccessToken_refresh_spec (c : Client) (now : Int) (out : HttpOutcome) :
    (now + 60 > c.tokenExpiry → authCount (getAccessToken c now out).2.1 = 1) ∧
    (now + 60 ≤ c.tokenExpiry →
      authCount (getAccessToken c now out).2.1 = 0 ∧
      (getAccessToken c now out).2.2 = Except.ok c.accessToken ∧
      (getAccessToken c now out).1 = c) := by
  constructor
  · intro h
    have hc : c.tokenExpiry < now + 60 := h
    rcases ha : authenticate c now out with ⟨c', tr, r⟩
    have htr : tr = [Request.auth (authURL c) c.scriptName c.scriptKey] := by
      have h0 := authenticate_trace c now out
      rw [ha] at h0
      exact h0
    subst htr
    cases r with
    | none => simp [getAccessToken, hc, ha, authCount, Request.isAuthCall]
    | some e => simp [getAccessToken, hc, ha, authCount, Request.isAuthCall]
  · intro h
    have hc : ¬ c.tokenExpiry < now + 60 := by omega
    simp [getAccessToken, hc, authCount]

/-- C1 witness input: a stale client (expiry strictly within the buffer). -/
def cStale : Client :=
  { baseURL := "https://site", apiVersion := "v1.1", accessToken := "tokA",
    refreshToken := "refA", tokenExpiry := 30, scriptName := "scr", scriptKey := "key" }

/-- C1 witness input: a fresh client (expiry beyond the buffer). -/
def cFresh : Client :=
  { baseURL := "https://site", apiVersion := "v1.1", accessToken := "tokA",
    refreshToken := "refA", tokenExpiry := 1000, scriptName := "scr", scriptKey := "key" }

/-- C1 witness: the amended theorem applied on both sides of the boundary. -/
theorem getAccessToken_refresh_spec_witness :
    authCount (getAccessToken cStale 0 outUnused).2.1 = 1 ∧
    (getAccessToken cFresh 0 outUnused).2.2 = Except.ok cFresh.accessToken :=
  ⟨(getAccessToken_refresh_spec cStale 0 outUnused).1 (by norm_num [cStale]),
   ((getAccessToken_refresh_spec cFresh 0 outUnused).2 (by norm_num [cFresh])).2.1⟩

/-- C6: with a complete configuration, `NewClient` performs exactly one
token exchange; when the endpoint answers 200 with a well-formed token
body (non-empty access token, positive `expires_in`) the constructor
returns a client on which `IsAuthenticated` is true immediately; when
the single exchange fails the constructor returns an error and no
client. -/
theorem newClient_spec (cfg : Config) (now : Int) (out : HttpOutcome)
    (h1 : cfg.siteURL ≠ "") (h2 : cfg.scriptName ≠ "") (h3 : cfg.scriptKey ≠ "") :
    authCount (newClient cfg now out).2 = 1 ∧
    (∀ text j t, out = HttpOutcome.response 200 text (some j) →
      parseTokenResponse j = some t → t.accessToken ≠ "" → 0 < t.expiresIn →
      ∃ c, (newClient cfg now out).1 = Except.ok c ∧ isAuthenticated c now = true) ∧
    (∀ e, (authenticate (initClient cfg) now out).2.2 = some e →
      (newClient cfg now out).1 = Except.error ("initial authentication failed: " ++ e)) := by
  refine ⟨?_, ?_, ?_⟩
  · rcases ha : authenticate (initClient cfg) now out with ⟨c', tr, r⟩
    have htr : tr = [Request.auth (authURL (initClient cfg))
        (initClient cfg).scriptName (initClient cfg).scriptKey] := by
      have h0 := authenticate_trace (initClient cfg) now out
      rw [ha] at h0
      exact h0
    subst htr
    cases r <;> simp [newClient, h1, h2, h3, ha, authCount, Request.isAuthCall]
  · intro text j t hout hparse htok hexp
    have hres : (newClient cfg now out).1 = Except.ok
        { initClient cfg with
          accessToken := t.accessToken
          refreshToken := t.refreshToken
          tokenExpiry := now + t.expiresIn } := by
      simp [newClient, h1, h2, h3, hout, authenticate, hparse]
    refine ⟨_, hres, ?_⟩
    simp only [isAuthenticated, Bool.and_eq_true, bne_iff_ne, ne_eq,
      decide_eq_true_eq]
    exact ⟨htok, by omega⟩
  · intro e he
    rcases ha : authenticate (initClient cfg) now out with ⟨c', tr, r⟩
    rw [ha] at he
    simp only at he
    subst he
    simp [newClient, h1, h2, h3, ha]

/-- C6 witness input: a complete configuration. -/
def cfgDemo : Config :=
  { siteURL := "https://site", scriptName := "scr", scriptKey := "key", apiVersion := "" }

/-- C6 witness: the constructor theorem applied at a concrete
configuration and a concrete 200 response. -/
theorem newClient_spec_witness :
    authCount (newClient cfgDemo 0 (HttpOutcome.response 200 "" (some tokenBodyDemo))).2 = 1 ∧
    ∃ c, (newClient cfgDemo 0 (HttpOutcome.response 200 "" (some tokenBodyDemo))).1 =
        Except.ok c ∧ isAuthenticated c 0 = true := by
  have h := newClient_spec cfgDemo 0 (HttpOutcome.response 200 "" (some tokenBodyDemo))
    (by simp [cfgDemo]) (by simp [cfgDemo]) (by simp [cfgDemo])
  exact ⟨h.1, h.2.1 "" tokenBodyDemo ⟨"Bearer", "tokB", 600, "refB"⟩ rfl rfl
    (by simp) (by norm_num)⟩

/-! Helper lemmas about association-list maps and the flattening loop. -/

/-- A merge loop prepends the source bindings in reverse order. -/
theorem mergeInto_eq_append (src : JObj) : ∀ base : JObj,
    mergeInto base src = src.reverse ++ base := by
  induction src with
  | nil => intro base; rfl
  | cons p ps ih =>
      intro base
      have h1 : mergeInto base (p :: ps) = mergeInto (p :: base) ps := by
        simp [mergeInto, mapSet]
      rw [h1, ih (p :: base)]
      simp

/-- Lookup skips a block in which the key does not occur. -/
theorem mapGet_append_of_none (xs ys : JObj) (k : String)
    (h : mapGet xs k = none) : mapGet (xs ++ ys) k = mapGet ys k := by
  induction xs with
  | nil => rfl
  | cons p ps ih =>
      rcases p with ⟨k', v⟩
      by_cases hk : k' = k
      · simp [mapGet, hk] at h
      · simp only [List.cons_append, mapGet, if_neg hk] at h ⊢
        exact ih h

/-- Lookup stays inside a block in which the key resolves. -/
theorem mapGet_append_of_some (xs ys : JObj) (k : String) (v : Json)
    (h : mapGet xs k = some v) : mapGet (xs ++ ys) k = some v := by
  induction xs with
  | nil => simp [mapGet] at h
  | cons p ps ih =>
      rcases p with ⟨k', w⟩
      by_cases hk : k' = k
      · simp only [List.cons_append, mapGet, if_pos hk] at h ⊢
        exact h
      · simp only [List.cons_append, mapGet, if_neg hk] at h ⊢
        exact ih h

/-- A key that occurs nowhere resolves to nothing. -/
theorem mapGet_eq_none_of_not_mem (xs : JObj) (k : String)
    (h : k ∉ xs.map Prod.fst) : mapGet xs k = none := by
  induction xs with
  | nil => rfl
  | cons p ps ih =>
      rcases p with ⟨k', v⟩
      simp only [List.map_cons, List.mem_cons, not_or] at h
      have hk : k' ≠ k := fun hh => h.1 hh.symm
      simp only [mapGet, if_neg hk]
      exact ih h.2

/-- In a duplicate-free object a binding determines the lookup. -/
theorem mapGet_of_mem_nodup (xs : JObj) (k : String) (v : Json)
    (hnd : (xs.map Prod.fst).Nodup) (hm : (k, v) ∈ xs) : mapGet xs k = some v := by
  induction xs with
  | nil => cases hm
  | cons p ps ih =>
      rcases p with ⟨k', w⟩
      simp only [List.map_cons, List.nodup_cons] at hnd
      rcases List.mem_cons.mp hm with heq | hmem
      · injection heq with e1 e2
        subst e1
        subst e2
        simp [mapGet]
      · have hk : k' ≠ k := by
          intro hkk
          subst hkk
          exact hnd.1 (List.mem_map.mpr ⟨(k', v), hmem, rfl⟩)
        simp only [mapGet, if_neg hk]
        exact ih hnd.2 hmem

/-- The flattening loop laid out as one list. -/
theorem flattenItem_eq (id : Int) (ty : String) (attrs rels : JObj) :
    flattenItem id ty attrs rels =
      rels.reverse ++ (attrs.reverse ++ [("type", Json.str ty), ("id", Json.num id)]) := by
  simp [flattenItem, mergeInto_eq_append, mapSet, List.append_assoc]

/-- C4: in the flattened entity (id and type inserted first, then all
attributes, then all relationships) any key present in both attributes
and relationships resolves to its relationships value. -/
theorem flatten_relationship_wins (id : Int) (ty : String) (attrs rels : JObj)
    (k : String) (v : Json) (hka : k ∈ attrs.map Prod.fst)
    (hnd : (rels.map Prod.fst).Nodup) (hm : (k, v) ∈ rels) :
    mapGet (flattenItem id ty attrs rels) k = some v := by
  rw [flattenItem_eq]
  apply mapGet_append_of_some
  apply mapGet_of_mem_nodup
  · rw [List.map_reverse]
    exact List.nodup_reverse.mpr hnd
  · exact List.mem_reverse.mpr hm

/-- C4 witness: attributes `{a: 1}` with relationships `{a: 2}` flatten
to an entity whose `a` is `2`. -/
theorem flatten_relationship_wins_witness :
    mapGet (flattenItem 7 "Shot" [("a", Json.num 1)] [("a", Json.num 2)]) "a" =
      some (Json.num 2) :=
  flatten_relationship_wins 7 "Shot" [("a", Json.num 1)] [("a", Json.num 2)] "a"
    (Json.num 2) (by simp) (by simp) (by simp)

/-- C9: an attributes or relationships key literally named `id` or
`type` overwrites the envelope-level value in the flattened entity: an
`id` binding in the attributes (with no competing relationships binding)
wins over the envelope id, and a relationships binding takes final
precedence over everything. -/
theorem flatten_envelope_shadowing (id : Int) (ty : String) (attrs rels : JObj) (v : Json) :
    ((attrs.map Prod.fst).Nodup → ("id", v) ∈ attrs → "id" ∉ rels.map Prod.fst →
      mapGet (flattenItem id ty attrs rels) "id" = some v) ∧
    ((rels.map Prod.fst).Nodup → ("type", v) ∈ rels →
      mapGet (flattenItem id ty attrs rels) "type" = some v) := by
  constructor
  · intro hnd hmem hnot
    rw [flattenItem_eq]
    rw [mapGet_append_of_none]
    · apply mapGet_append_of_some
      apply mapGet_of_mem_nodup
      · rw [List.map_reverse]
        exact List.nodup_reverse.mpr hnd
      · exact List.mem_reverse.mpr hmem
    · apply mapGet_eq_none_of_not_mem
      rw [List.map_reverse]
      simpa using hnot
  · intro hnd hmem
    rw [flattenItem_eq]
    apply mapGet_append_of_some
    apply mapGet_of_mem_nodup
    · rw [List.map_reverse]
      exact List.nodup_reverse.mpr hnd
    · exact List.mem_reverse.mpr hmem

/-- C9 witness: an `id` attribute shadows the envelope id, and a `type`
relationship shadows both the envelope type and any attribute. -/
theorem flatten_envelope_shadowing_witness :
    mapGet (flattenItem 7 "Shot" [("id", Json.str "X")] [("b", Json.num 3)]) "id" =
      some (Json.str "X") ∧
    mapGet (flattenItem 7 "Shot" [("type", Json.str "A")] [("type", Json.str "B")]) "type" =
      some (Json.str "B") :=
  ⟨(flatten_envelope_shadowing 7 "Shot" [("id", Json.str "X")] [("b", Json.num 3)]
      (Json.str "X")).1 (by simp) (by simp) (by simp),
   (flatten_envelope_shadowing 7 "Shot" [("type", Json.str "A")] [("type", Json.str "B")]
      (Json.str "B")).2 (by simp) (by simp)⟩

/-- C7: the search request body always carries a `filters` field: an
empty array when no filters were supplied, the supplied value unchanged
otherwise; and `FindEntities` issues exactly one search request built
from that body whenever the token step succeeds. -/
theorem findEntities_filters_field (c : Client) (now : Int) (aOut sOut : HttpOutcome)
    (entityType : String) (fields : List String) (tok : String)
    (h : (getAccessToken c now aOut).2.2 = Except.ok tok) :
    searchBody none = [("filters", Json.arr [])] ∧
    mapGet (searchBody none) "filters" = some (Json.arr []) ∧
    (∀ f, searchBody (some f) = [("filters", f)]) ∧
    (∀ f, (findEntities c now aOut sOut entityType f fields).2.1 =
      (getAccessToken c now aOut).2.1 ++
        [Request.search (searchURL (getAccessToken c now aOut).1 entityType fields)
          (searchBody f)]) := by
  refine ⟨rfl, rfl, fun f => rfl, fun f => ?_⟩
  rcases hg : getAccessToken c now aOut with ⟨c', tr, r⟩
  rw [hg] at h
  simp only at h
  subst h
  cases sOut with
  | sendError m => simp [findEntities, hg]
  | readError m => simp [findEntities, hg]
  | response st text j =>
      by_cases hst : st = 200
      · subst hst
        cases hj : Option.bind j parseSearchData with
        | none => simp [findEntities, hg, hj]
        | some items => simp [findEntities, hg, hj]
      · simp [findEntities, hg, hst]

/-- C7 witness: with no filters and a failing search the issued request
still carries the empty filters array. -/
theorem findEntities_filters_field_witness :
    (findEntities cDemo 0 outUnused (HttpOutcome.response 500 "err" none) "shots" none []).2.1 =
      [Request.search (searchURL cDemo "shots" []) [("filters", Json.arr [])]] := by
  have h := (findEntities_filters_field cDemo 0 outUnused
    (HttpOutcome.response 500 "err" none) "shots" [] "tokA" rfl).2.2.2 none
  simpa using h

/-! Helper lemmas about the error-message prefixes. -/

/-- A list is a prefix of itself extended by anything. -/
theorem listHasPref_self_append (xs ys : List Char) : listHasPref xs (xs ++ ys) = true := by
  induction xs with
  | nil => rfl
  | cons a as ih => simp [listHasPref, ih]

/-- A prefix test that fits inside the first block ignores the rest. -/
theorem listHasPref_append_extend (xs : List Char) : ∀ ys zs : List Char,
    xs.length ≤ ys.length → listHasPref xs (ys ++ zs) = listHasPref xs ys := by
  induction xs with
  | nil => intro ys zs h; simp [listHasPref]
  | cons a as ih =>
      intro ys zs h
      cases ys with
      | nil => simp at h
      | cons b bs =>
          simp only [List.cons_append, listHasPref, List.append_eq]
          rw [ih bs zs (by simp at h; omega)]

/-- Appending strings appends their character data. -/
theorem strData_append (s t : String) : (s ++ t).data = s.data ++ t.data := by
  cases s
  cases t
  rfl

/-- A send failure is classified as a transport error. -/
theorem classify_send (m : String) :
    classifyErr ("failed to send request: " ++ m) = some ErrKind.transport := by
  have h : strHasPref "failed to send request: " ("failed to send request: " ++ m) = true := by
    unfold strHasPref
    rw [strData_append]
    exact listHasPref_self_append _ _
  simp [classifyErr, h]

/-- A read failure is classified as a transport error. -/
theorem classify_read (m : String) :
    classifyErr ("failed to read response: " ++ m) = some ErrKind.transport := by
  have h : strHasPref "failed to read response: " ("failed to read response: " ++ m) = true := by
    unfold strHasPref
    rw [strData_append]
    exact listHasPref_self_append _ _
  simp [classifyErr, h]

/-- A non-success status is classified as an application error. -/
theorem classify_status (st : Nat) (text : String) :
    classifyErr (statusFailMsg st text) = some ErrKind.application := by
  have hdata : (statusFailMsg st text).data =
      "request failed with status ".data ++
        ((toString st).data ++ (": ".data ++ text.data)) := by
    simp [statusFailMsg, strData_append, List.append_assoc]
  have h1 : strHasPref "failed to send request: " (statusFailMsg st text) = false := by
    unfold strHasPref
    rw [hdata, listHasPref_append_extend _ _ _ (by decide)]
    decide
  have h2 : strHasPref "failed to read response: " (statusFailMsg st text) = false := by
    unfold strHasPref
    rw [hdata, listHasPref_append_extend _ _ _ (by decide)]
    decide
  have h3 : strHasPref "failed to parse response: " (statusFailMsg st text) = false := by
    unfold strHasPref
    rw [hdata, listHasPref_append_extend _ _ _ (by decide)]
    decide
  have h4 : strHasPref "request failed with status " (statusFailMsg st text) = true := by
    unfold strHasPref
    rw [hdata]
    exact listHasPref_self_append _ _
  simp [classifyErr, h1, h2, h3, h4]

/-- The fixed decode-failure message is classified as a decode error. -/
theorem classify_parse : classifyErr parseFailMsg = some ErrKind.decode := by decide

/-- C2: for each entity operation the three failure outcomes — transport
failure (send or read), application-level rejection (non-success status)
and decode failure — produce error values whose fixed message prefixes
let the caller recover which of the three distinct kinds occurred from
the error value alone, via `classifyErr`. -/
theorem entity_ops_error_kinds (c : Client) (now : Int) (aOut : HttpOutcome) (tok : String)
    (h : (getAccessToken c now aOut).2.2 = Except.ok tok)
    (entityType : String) (filters : Option Json) (fields : List String)
    (eid : Int) (payload : JObj) :
    (ErrKind.transport ≠ ErrKind.decode ∧ ErrKind.transport ≠ ErrKind.application ∧
      ErrKind.decode ≠ ErrKind.application) ∧
    (∀ m, (findEntities c now aOut (HttpOutcome.sendError m) entityType filters fields).2.2 =
        Except.error ("failed to send request: " ++ m) ∧
      classifyErr ("failed to send request: " ++ m) = some ErrKind.transport) ∧
    (∀ m, (findEntities c now aOut (HttpOutcome.readError m) entityType filters fields).2.2 =
        Except.error ("failed to read response: " ++ m) ∧
      classifyErr ("failed to read response: " ++ m) = some ErrKind.transport) ∧
    (∀ st text j, st ≠ 200 →
      (findEntities c now aOut (HttpOutcome.response st text j) entityType filters fields).2.2 =
        Except.error (statusFailMsg st text) ∧
      classifyErr (statusFailMsg st text) = some ErrKind.application) ∧
    (∀ text j, Option.bind j parseSearchData = none →
      (findEntities c now aOut (HttpOutcome.response 200 text j) entityType filters fields).2.2 =
        Except.error parseFailMsg ∧
      classifyErr parseFailMsg = some ErrKind.decode) ∧
    (∀ m, (getEntity c now aOut (HttpOutcome.sendError m) entityType eid fields).2.2 =
        Except.error ("failed to send request: " ++ m) ∧
      classifyErr ("failed to send request: " ++ m) = some ErrKind.transport) ∧
    (∀ m, (getEntity c now aOut (HttpOutcome.readError m) entityType eid fields).2.2 =
        Except.error ("failed to read response: " ++ m) ∧
      classifyErr ("failed to read response: " ++ m) = some ErrKind.transport) ∧
    (∀ st text j, st ≠ 200 →
      (getEntity c now aOut (HttpOutcome.response st text j) entityType eid fields).2.2 =
        Except.error (statusFailMsg st text) ∧
      classifyErr (statusFailMsg st text) = some ErrKind.application) ∧
    (∀ text j, Option.bind j parseSingleData = none →
      (getEntity c now aOut (HttpOutcome.response 200 text j) entityType eid fields).2.2 =
        Except.error parseFailMsg ∧
      classifyErr parseFailMsg = some ErrKind.decode) ∧
    (∀ m, (createEntity c now aOut (HttpOutcome.sendError m) entityType payload).2.2 =
        Except.error ("failed to send request: " ++ m) ∧
      classifyErr ("failed to send request: " ++ m) = some ErrKind.transport) ∧
    (∀ m, (createEntity c now aOut (HttpOutcome.readError m) entityType payload).2.2 =
        Except.error ("failed to read response: " ++ m) ∧
      classifyErr ("failed to read response: " ++ m) = some ErrKind.transport) ∧
    (∀ st text j, st ≠ 201 →
      (createEntity c now aOut (HttpOutcome.response st text j) entityType payload).2.2 =
        Except.error (statusFailMsg st text) ∧
      classifyErr (statusFailMsg st text) = some ErrKind.application) ∧
    (∀ text j, Option.bind j parseSingleData = none →
      (createEntity c now aOut (HttpOutcome.response 201 text j) entityType payload).2.2 =
        Except.error parseFailMsg ∧
      classifyErr parseFailMsg = some ErrKind.decode) := by
  rcases hg : getAccessToken c now aOut with ⟨c', tr, r⟩
  rw [hg] at h
  simp only at h
  subst h
  refine ⟨⟨by decide, by decide, by decide⟩, ?_, ?_, ?_, ?_, ?_, ?_, ?_, ?_, ?_, ?_, ?_, ?_⟩
  · exact fun m => ⟨by simp [findEntities, hg], classify_send m⟩
  · exact fun m => ⟨by simp [findEntities, hg], classify_read m⟩
  · exact fun st text j hst => ⟨by simp [findEntities, hg, hst], classify_status st text⟩
  · exact fun text j hj => ⟨by simp [findEntities, hg, hj], classify_parse⟩
  · exact fun m => ⟨by simp [getEntity, hg], classify_send m⟩
  · exact fun m => ⟨by simp [getEntity, hg], classify_read m⟩
  · exact fun st text j hst => ⟨by simp [getEntity, hg, hst], classify_status st text⟩
  · exact fun text j hj => ⟨by simp [getEntity, hg, hj], classify_parse⟩
  · exact fun m => ⟨by simp [createEntity, hg], classify_send m⟩
  · exact fun m => ⟨by simp [createEntity, hg], classify_read m⟩
  · exact fun st text j hst => ⟨by simp [createEntity, hg, hst], classify_status st text⟩
  · exact fun text j hj => ⟨by simp [createEntity, hg, hj], classify_parse⟩

/-- C2 witness: the three kinds recovered from concrete error values of
a concrete client. -/
theorem entity_ops_error_kinds_witness :
    ((findEntities cDemo 0 outUnused (HttpOutcome.sendError "no route") "shots" none []).2.2 =
      Except.error ("failed to send request: " ++ "no route") ∧
      classifyErr ("failed to send request: " ++ "no route") = some ErrKind.transport) ∧
    ((findEntities cDemo 0 outUnused (HttpOutcome.response 500 "boom" none) "shots" none []).2.2 =
      Except.error (statusFailMsg 500 "boom") ∧
      classifyErr (statusFailMsg 500 "boom") = some ErrKind.application) ∧
    ((findEntities cDemo 0 outUnused (HttpOutcome.response 200 "bad body" none) "shots" none []).2.2 =
      Except.error parseFailMsg ∧
      classifyErr parseFailMsg = some ErrKind.decode) := by
  have h := entity_ops_error_kinds cDemo 0 outUnused "tokA" rfl "shots" none [] 1 []
  exact ⟨h.2.1 "no route", h.2.2.2.1 500 "boom" none (by norm_num),
    h.2.2.2.2.1 "bad body" none rfl⟩

/-- C8: `GetUserByLogin` turns a successful search with zero matches
into a distinct not-found error (while `FindEntities` itself returns the
empty sequence with no error), returns the first match when there is at
least one, and passes search errors through. -/
theorem getUserByLogin_spec (c : Client) (now : Int) (aOut sOut : HttpOutcome) (login : String) :
    ((findEntities c now aOut sOut "human_users" (some (loginFilters login)) userFields).2.2 =
        Except.ok [] →
      (getUserByLogin c now aOut sOut login).2.2 =
        Except.error ("user not found with login: " ++ login)) ∧
    (∀ u rest,
      (findEntities c now aOut sOut "human_users" (some (loginFilters login)) userFields).2.2 =
        Except.ok (u :: rest) →
      (getUserByLogin c now aOut sOut login).2.2 = Except.ok u) ∧
    (∀ e,
      (findEntities c now aOut sOut "human_users" (some (loginFilters login)) userFields).2.2 =
        Except.error e →
      (getUserByLogin c now aOut sOut login).2.2 = Except.error e) := by
  rcases hf : findEntities c now aOut sOut "human_users" (some (loginFilters login)) userFields
    with ⟨c', tr, r⟩
  refine ⟨?_, ?_, ?_⟩
  · intro h
    simp only at h
    subst h
    simp [getUserByLogin, hf]
  · intro u rest h
    simp only at h
    subst h
    simp [getUserByLogin, hf]
  · intro e h
    simp only at h
    subst h
    simp [getUserByLogin, hf]

/-- A search outcome with a successful but empty data envelope. -/
def emptySearchOut : HttpOutcome :=
  HttpOutcome.response 200 "" (some (Json.obj [("data", Json.arr [])]))

/-- A search outcome with exactly one user item. -/
def oneUserOut : HttpOutcome :=
  HttpOutcome.response 200 "" (some (Json.obj [("data",
    Json.arr [Json.obj [("id", Json.num 5), ("type", Json.str "HumanUser")]])]))

/-- C8 witness: a zero-match search yields the not-found error, a
one-match search yields the first flattened user. -/
theorem getUserByLogin_spec_witness :
    (getUserByLogin cDemo 0 outUnused emptySearchOut "alice").2.2 =
      Except.error ("user not found with login: " ++ "alice") ∧
    (getUserByLogin cDemo 0 outUnused oneUserOut "alice").2.2 =
      Except.ok [("type", Json.str "HumanUser"), ("id", Json.num 5)] :=
  ⟨(getUserByLogin_spec cDemo 0 outUnused emptySearchOut "alice").1 rfl,
   (getUserByLogin_spec cDemo 0 outUnused oneUserOut "alice").2.1
     [("type", Json.str "HumanUser"), ("id", Json.num 5)] [] rfl⟩

/-- C5: when the first step of `GetShotsForUser` returns zero tasks, the
whole call returns the empty sequence with no error, and its request
trace is exactly that of the tasks lookup — no shots-lookup request is
issued. -/
theorem getShotsForUser_no_tasks (c : Client) (now : Int) (a1 o1 a2 o2 : HttpOutcome)
    (uid : Int) (fs : List String)
    (h : (getTasksForUser c now a1 o1 uid ["entity"]).2.2 = Except.ok []) :
    (getShotsForUser c now a1 o1 a2 o2 uid fs).2.2 = Except.ok [] ∧
    (getShotsForUser c now a1 o1 a2 o2 uid fs).2.1 =
      (getTasksForUser c now a1 o1 uid ["entity"]).2.1 := by
  rcases ht : getTasksForUser c now a1 o1 uid ["entity"] with ⟨c', tr, r⟩
  rw [ht] at h
  simp only at h
  subst h
  constructor <;> simp [getShotsForUser, ht, extractShotIDs, extractAux]

/-- C5 witness: a user with an empty task list gets the empty result. -/
theorem getShotsForUser_no_tasks_witness :
    (getShotsForUser cDemo 0 outUnused emptySearchOut outUnused outUnused 9 []).2.2 =
      Except.ok [] ∧
    (getShotsForUser cDemo 0 outUnused emptySearchOut outUnused outUnused 9 []).2.1 =
      (getTasksForUser cDemo 0 outUnused emptySearchOut 9 ["entity"]).2.1 :=
  getShotsForUser_no_tasks cDemo 0 outUnused emptySearchOut outUnused outUnused 9 [] rfl

/-! Helper lemmas about the shot-id extraction loop. -/

/-- Characterization of the type and id checks. -/
theorem shotIDOfObj_eq_some (ent0 : JObj) (i : Int) :
    shotIDOfObj ent0 = some i ↔
      mapGet (unwrapData ent0) "type" = some (Json.str "Shot") ∧
      mapGet (unwrapData ent0) "id" = some (Json.num i) := by
  unfold shotIDOfObj
  rcases hty : mapGet (unwrapData ent0) "type" with _ | tv
  · simp
  · cases tv with
    | null => simp
    | bool b => simp
    | num n => simp
    | arr xs => simp
    | obj o => simp
    | str ty =>
        by_cases hsh : ty = "Shot"
        · subst hsh
          simp only [if_pos rfl]
          rcases hid : mapGet (unwrapData ent0) "id" with _ | iv
          · simp
          · cases iv <;> simp
        · simp [hsh]

/-- Characterization of the per-task extraction. -/
theorem extractShotID_eq_some (t : Entity) (i : Int) :
    extractShotID t = some i ↔
      ∃ ent0, mapGet t "entity" = some (Json.obj ent0) ∧ shotIDOfObj ent0 = some i := by
  unfold extractShotID
  rcases hent : mapGet t "entity" with _ | v
  · simp
  · cases v <;> simp

/-- The accumulation loop preserves freedom from duplicates. -/
theorem extractAux_nodup (tasks : List Entity) : ∀ acc : List Int,
    acc.Nodup → (extractAux acc tasks).Nodup := by
  induction tasks with
  | nil => intro acc h; exact h
  | cons t ts ih =>
      intro acc h
      cases hE : extractShotID t with
      | none => simpa [extractAux, hE] using ih acc h
      | some i =>
          by_cases hmem : i ∈ acc
          · simpa [extractAux, hE, hmem] using ih acc h
          · have hnd : (acc ++ [i]).Nodup := by
              rw [List.nodup_append]
              refine ⟨h, List.nodup_singleton i, ?_⟩
              intro a ha hai
              rw [List.mem_singleton] at hai
              subst hai
              exact hmem ha
            simpa [extractAux, hE, hmem] using ih (acc ++ [i]) hnd

/-- Membership in the accumulation loop's result. -/
theorem extractAux_mem (tasks : List Entity) : ∀ (acc : List Int) (i : Int),
    i ∈ extractAux acc tasks ↔ i ∈ acc ∨ ∃ t ∈ tasks, extractShotID t = some i := by
  induction tasks with
  | nil => intro acc i; simp [extractAux]
  | cons t ts ih =>
      intro acc i
      cases hE : extractShotID t with
      | none =>
          rw [show extractAux acc (t :: ts) = extractAux acc ts by simp [extractAux, hE]]
          rw [ih acc i]
          constructor
          · rintro (h | ⟨u, hu, he⟩)
            · exact Or.inl h
            · exact Or.inr ⟨u, List.mem_cons_of_mem t hu, he⟩
          · rintro (h | ⟨u, hu, he⟩)
            · exact Or.inl h
            · rcases List.mem_cons.mp hu with rfl | hu'
              · rw [hE] at he; cases he
              · exact Or.inr ⟨u, hu', he⟩
      | some j0 =>
          rw [show extractAux acc (t :: ts) =
            extractAux (if j0 ∈ acc then acc else acc ++ [j0]) ts from by simp [extractAux, hE]]
          rw [ih]
          by_cases hmem : j0 ∈ acc
          · rw [if_pos hmem]
            constructor
            · rintro (h | ⟨u, hu, he⟩)
              · exact Or.inl h
              · exact Or.inr ⟨u, List.mem_cons_of_mem t hu, he⟩
            · rintro (h | ⟨u, hu, he⟩)
              · exact Or.inl h
              · rcases List.mem_cons.mp hu with rfl | hu'
                · rw [hE] at he
                  injection he with he'
                  subst he'
                  exact Or.inl hmem
                · exact Or.inr ⟨u, hu', he⟩
          · rw [if_neg hmem]
            constructor
            · rintro (h | ⟨u, hu, he⟩)
              · rcases List.mem_append.mp h with h' | h'
                · exact Or.inl h'
                · rw [List.mem_singleton] at h'
                  subst h'
                  exact Or.inr ⟨t, List.mem_cons_self t ts, hE⟩
              · exact Or.inr ⟨u, List.mem_cons_of_mem t hu, he⟩
            · rintro (h | ⟨u, hu, he⟩)
              · exact Or.inl (List.mem_append.mpr (Or.inl h))
              · rcases List.mem_cons.mp hu with rfl | hu'
                · rw [hE] at he
                  injection he with he'
                  subst he'
                  exact Or.inl (List.mem_append.mpr (Or.inr (List.mem_singleton.mpr rfl)))
                · exact Or.inr ⟨u, hu', he⟩

/-- C10: an id enters the shot-id list exactly when some task's `entity`
value is an object which, after unwrapping an optional nested `data`
object, has type the string `"Shot"` and that numeric id (all other
shapes are silently skipped); a `data`-wrapped object is read exactly
like a direct one; and the resulting list passed to the second search
holds each id exactly once. -/
theorem shot_id_extraction_spec (tasks : List Entity) :
    (extractShotIDs tasks).Nodup ∧
    (∀ i : Int, i ∈ extractShotIDs tasks ↔ ∃ t ∈ tasks, extractShotID t = some i) ∧
    (∀ t (i : Int), extractShotID t = some i ↔
      ∃ ent, mapGet t "entity" = some (Json.obj ent) ∧
        mapGet (unwrapData ent) "type" = some (Json.str "Shot") ∧
        mapGet (unwrapData ent) "id" = some (Json.num i)) ∧
    (∀ ent d, mapGet ent "data" = some (Json.obj d) → unwrapData ent = d) := by
  refine ⟨extractAux_nodup tasks [] List.nodup_nil, ?_, ?_, ?_⟩
  · intro i
    rw [extractShotIDs, extractAux_mem]
    simp
  · intro t i
    rw [extractShotID_eq_some]
    constructor
    · rintro ⟨ent0, hent, hobj⟩
      exact ⟨ent0, hent, (shotIDOfObj_eq_some ent0 i).mp hobj⟩
    · rintro ⟨ent0, hent, hty, hid⟩
      exact ⟨ent0, hent, (shotIDOfObj_eq_some ent0 i).mpr ⟨hty, hid⟩⟩
  · intro ent d h
    unfold unwrapData
    rw [h]

/-- C10 witness input: a task whose relationship object is direct. -/
def taskDirect : Entity :=
  [("entity", Json.obj [("type", Json.str "Shot"), ("id", Json.num 12)])]

/-- C10 witness input: the same shot id wrapped one level under `data`. -/
def taskWrapped : Entity :=
  [("entity", Json.obj [("data", Json.obj [("type", Json.str "Shot"), ("id", Json.num 12)])])]

/-- C10 witness input: a task pointing at a non-shot entity. -/
def taskOther : Entity :=
  [("entity", Json.obj [("type", Json.str "Asset"), ("id", Json.num 3)])]

/-- C10 witness: over a direct shot, the same shot wrapped under `data`
and a non-shot task the extracted list is duplicate-free and contains
the shot id (via the wrapped task), but not the non-shot id. -/
theorem shot_id_extraction_spec_witness :
    (extractShotIDs [taskDirect, taskWrapped, taskOther]).Nodup ∧
    (12 : Int) ∈ extractShotIDs [taskDirect, taskWrapped, taskOther] ∧
    ¬ (3 : Int) ∈ extractShotIDs [taskDirect, taskWrapped, taskOther] := by
  have h := shot_id_extraction_spec [taskDirect, taskWrapped, taskOther]
  refine ⟨h.1, (h.2.1 12).mpr ⟨taskWrapped, by simp, rfl⟩, ?_⟩
  intro hmem
  rcases (h.2.1 3).mp hmem with ⟨t, ht, he⟩
  simp only [List.mem_cons, List.not_mem_nil, or_false] at ht
  rcases ht with rfl | rfl | rfl
  · exact absurd he (by decide)
  · exact absurd he (by decide)
  · exact absurd he (by decide)

end FlowAPI
